import Mathlib

/-!
Verification development for the firefly-iii-ai transaction-classification
pipeline.  The definitions below are a shallow embedding of the JavaScript
source: `OpenAiService` (prompt generation and the multi-tier response
parser), `OllamaService` (prompt generation and classification),
`FireflyService` (ledger mutations: `setCategory`,
`setCategoryAndDestination`, `removeTagFromTransaction`) and `App`
(`#handleWebhook` validation and the queued job body).  Strings are Lean
`String`s, JavaScript `null`/`undefined` and absent object keys are made
explicit, and the builtin `JSON.parse` is modelled by an executable JSON
parser over character lists.
-/

namespace FireflyAI

/-- JavaScript values produced by `JSON.parse`: null, booleans, numbers
(kept as their source lexeme, which is all the embedded code ever needs),
strings, arrays and objects (field lists in source order). -/
inductive JValue where
  | null
  | bool (b : Bool)
  | num (lexeme : String)
  | str (s : String)
  | arr (elems : List JValue)
  | obj (fields : List (String × JValue))

/-- Whitespace accepted between JSON tokens (space, tab, newline, carriage
return), as in the JSON grammar used by `JSON.parse`. -/
def isJsonWs (c : Char) : Bool :=
  c = ' ' || c = '\t' || c = '\n' || c = '\r'

/-- Drop leading JSON whitespace. -/
def skipWs : List Char → List Char
  | [] => []
  | c :: cs => if isJsonWs c then skipWs cs else c :: cs

/-- Value of a hexadecimal digit, if the character is one. -/
def hexDigitVal (c : Char) : Option Nat :=
  if '0' ≤ c ∧ c ≤ '9' then some (c.toNat - '0'.toNat)
  else if 'a' ≤ c ∧ c ≤ 'f' then some (c.toNat - 'a'.toNat + 10)
  else if 'A' ≤ c ∧ c ≤ 'F' then some (c.toNat - 'A'.toNat + 10)
  else none

/-- Parse the body of a JSON string after the opening quote.  Returns the
decoded characters and the input remaining after the closing quote.
Handles the JSON escapes including \uXXXX; raw control characters are
rejected as `JSON.parse` rejects them. -/
def parseStrBody (fuel : Nat) (cs : List Char) : Option (List Char × List Char) :=
  match fuel with
  | 0 => none
  | fuel + 1 =>
    match cs with
    | [] => none
    | '"' :: rest => some ([], rest)
    | '\\' :: rest =>
      match rest with
      | [] => none
      | e :: rest2 =>
        let dec : Option (Char × List Char) :=
          if e = '"' then some ('"', rest2)
          else if e = '\\' then some ('\\', rest2)
          else if e = '/' then some ('/', rest2)
          else if e = 'n' then some ('\n', rest2)
          else if e = 't' then some ('\t', rest2)
          else if e = 'r' then some ('\r', rest2)
          else if e = 'b' then some (Char.ofNat 8, rest2)
          else if e = 'f' then some (Char.ofNat 12, rest2)
          else if e = 'u' then
            match rest2 with
            | h1 :: h2 :: h3 :: h4 :: rest3 =>
              match hexDigitVal h1, hexDigitVal h2, hexDigitVal h3, hexDigitVal h4 with
              | some a, some b, some c, some d =>
                some (Char.ofNat (a * 4096 + b * 256 + c * 16 + d), rest3)
              | _, _, _, _ => none
            | _ => none
          else none
        match dec with
        | none => none
        | some (ch, rest3) =>
          match parseStrBody fuel rest3 with
          | some (content, rest4) => some (ch :: content, rest4)
          | none => none
    | c :: rest =>
      if c.toNat < 32 then none
      else
        match parseStrBody fuel rest with
        | some (content, rest2) => some (c :: content, rest2)
        | none => none

/-- Parse a JSON number lexeme (sign, integer part without leading zeros,
optional fraction, optional exponent).  Returns the lexeme characters and
the remaining input. -/
def parseNumLex (cs : List Char) : Option (List Char × List Char) :=
  let (sign, cs1) : List Char × List Char :=
    match cs with
    | '-' :: r => (['-'], r)
    | _ => ([], cs)
  let intPart : Option (List Char × List Char) :=
    match cs1 with
    | '0' :: r =>
      match r with
      | c :: _ => if c.isDigit then none else some (['0'], r)
      | [] => some (['0'], [])
    | c :: r =>
      if c.isDigit then some (c :: r.takeWhile Char.isDigit, r.dropWhile Char.isDigit)
      else none
    | [] => none
  match intPart with
  | none => none
  | some (ip, rest1) =>
    let (fp, rest2) : List Char × List Char :=
      match rest1 with
      | '.' :: r =>
        let ds := r.takeWhile Char.isDigit
        if ds.isEmpty then ([], rest1) else ('.' :: ds, r.dropWhile Char.isDigit)
      | _ => ([], rest1)
    -- a dot not followed by digits makes the whole number invalid in JSON
    match rest1 with
    | '.' :: r =>
      if (r.takeWhile Char.isDigit).isEmpty then none
      else parseExpPart (sign ++ ip ++ fp) rest2
    | _ => parseExpPart (sign ++ ip ++ fp) rest2
where
  parseExpPart (acc : List Char) (rest : List Char) : Option (List Char × List Char) :=
    match rest with
    | c :: r =>
      if c = 'e' ∨ c = 'E' then
        let (es, r2) : List Char × List Char :=
          match r with
          | s :: r2 => if s = '+' ∨ s = '-' then ([c, s], r2) else ([c], r)
          | [] => ([c], [])
        let ds := r2.takeWhile Char.isDigit
        if ds.isEmpty then none
        else some (acc ++ es ++ ds, r2.dropWhile Char.isDigit)
      else some (acc, rest)
    | [] => some (acc, [])

mutual

/-- Parse one JSON value from input with no leading whitespace.  Fuel
bounds the recursion; `jsonParse` supplies enough fuel for any input. -/
def parseJsonVal (fuel : Nat) (cs : List Char) : Option (JValue × List Char) :=
  match fuel with
  | 0 => none
  | fuel + 1 =>
    match cs with
    | 'n' :: 'u' :: 'l' :: 'l' :: rest => some (.null, rest)
    | 't' :: 'r' :: 'u' :: 'e' :: rest => some (.bool true, rest)
    | 'f' :: 'a' :: 'l' :: 's' :: 'e' :: rest => some (.bool false, rest)
    | '"' :: rest =>
      match parseStrBody (fuel + 1) rest with
      | some (content, rest2) => some (.str (String.mk content), rest2)
      | none => none
    | '[' :: rest =>
      match skipWs rest with
      | ']' :: rest2 => some (.arr [], rest2)
      | cs2 => parseJsonItems fuel cs2 []
    | '{' :: rest =>
      match skipWs rest with
      | '}' :: rest2 => some (.obj [], rest2)
      | cs2 => parseJsonMembers fuel cs2 []
    | c :: _ =>
      if c = '-' ∨ c.isDigit then
        match parseNumLex cs with
        | some (lex, rest) => some (.num (String.mk lex), rest)
        | none => none
      else none
    | [] => none

/-- Parse the comma-separated items of a non-empty JSON array (input is
positioned at the first item). -/
def parseJsonItems (fuel : Nat) (cs : List Char) (acc : List JValue) :
    Option (JValue × List Char) :=
  match fuel with
  | 0 => none
  | fuel + 1 =>
    match parseJsonVal fuel cs with
    | none => none
    | some (v, rest) =>
      match skipWs rest with
      | ',' :: rest2 => parseJsonItems fuel (skipWs rest2) (acc ++ [v])
      | ']' :: rest2 => some (.arr (acc ++ [v]), rest2)
      | _ => none

/-- Parse the comma-separated members of a non-empty JSON object (input is
positioned at the first key). -/
def parseJsonMembers (fuel : Nat) (cs : List Char) (acc : List (String × JValue)) :
    Option (JValue × List Char) :=
  match fuel with
  | 0 => none
  | fuel + 1 =>
    match cs with
    | '"' :: rest =>
      match parseStrBody fuel rest with
      | none => none
      | some (key, rest2) =>
        match skipWs rest2 with
        | ':' :: rest3 =>
          match parseJsonVal fuel (skipWs rest3) with
          | none => none
          | some (v, rest4) =>
            match skipWs rest4 with
            | ',' :: rest5 => parseJsonMembers fuel (skipWs rest5) (acc ++ [(String.mk key, v)])
            | '}' :: rest5 => some (.obj (acc ++ [(String.mk key, v)]), rest5)
            | _ => none
        | _ => none
    | _ => none

end

/-- Model of the JavaScript builtin `JSON.parse`: parse the whole string
as one JSON value, allowing surrounding whitespace, rejecting trailing
input.  `none` corresponds to `JSON.parse` throwing a `SyntaxError`. -/
def jsonParse (s : String) : Option JValue :=
  match parseJsonVal (2 * s.length + 4) (skipWs s.data) with
  | some (v, rest) => if (skipWs rest).isEmpty then some v else none
  | none => none

/-- JavaScript property read `o.k` on a parsed JSON value: a lookup on an
object (last duplicate key wins, as in `JSON.parse`), `undefined` (here
`none`) on any non-object.  The embedded code never reads a property of
`null`, which would throw. -/
def jsGet (j : JValue) (k : String) : Option JValue :=
  match j with
  | .obj fields => (fields.reverse.find? (fun p => decide (p.1 = k))).map (·.2)
  | _ => none

/-- Value of a field of the object literal that `#parseResponse` returns:
the key may be absent, present with the JavaScript `undefined`, or present
with a value (`FieldVal.val JValue.null` is the JavaScript `null`). -/
inductive FieldVal where
  | absent
  | undef
  | val (v : JValue)

/-- Candidate value as `#parseResponse` sees it: an absent object key
(`undefined`) or the parsed value. -/
def fieldOfGet : Option JValue → FieldVal
  | none => .undef
  | some v => .val v

/-- JavaScript `names.indexOf(v) !== -1` for a list of strings: only a
string can be strictly equal to an element. -/
def memStr (names : List String) : FieldVal → Bool
  | .val (.str s) => names.any (fun n => decide (n = s))
  | _ => false

/-- The resolved/suggested pair `#parseResponse` builds for one candidate:
`indexOf(cand) !== -1 ? cand : null` and `indexOf(cand) === -1 ? cand :
null`. -/
def classifyCand (names : List String) (cand : FieldVal) : FieldVal × FieldVal :=
  if memStr names cand then (cand, .val .null) else (.val .null, cand)

/-- Result object of `#parseResponse` (and, with `prompt`/`response`
spread in by `classify`, the ClassificationResult). -/
structure ParseResult where
  category : FieldVal := .absent
  suggestedCategory : FieldVal := .absent
  destinationAccount : FieldVal := .absent
  suggestedDestinationAccount : FieldVal := .absent
  budget : FieldVal := .absent
  suggestedBudget : FieldVal := .absent

/-- Whitespace stripped by JavaScript `String.prototype.trim` (the code
only ever meets ASCII whitespace, which is what is modelled). -/
def trimChars (cs : List Char) : List Char :=
  ((cs.dropWhile isJsonWs).reverse.dropWhile isJsonWs).reverse

/-- Model of JavaScript `s.trim()`. -/
def jsTrim (s : String) : String :=
  String.mk (trimChars s.data)

/-- Model of JavaScript `s.split(sep)` for a one-character separator:
`"".split` gives `[""]`, a trailing separator gives a trailing `""`. -/
def splitOnChar (sep : Char) : List Char → List (List Char)
  | [] => [[]]
  | c :: cs =>
    let r := splitOnChar sep cs
    if c = sep then [] :: r
    else
      match r with
      | g :: gs => (c :: g) :: gs
      | [] => [[c]]

/-- Model of the regex `response.match(/\x7b[\s\S]*\x7d/)`: the match, if
any, runs from the first opening brace to the last closing brace (the
quantifier is greedy and `[\s\S]` matches every character). -/
def braceMatch (s : String) : Option String :=
  let cs := s.data
  match cs.findIdx? (fun c => decide (c = '{')), cs.reverse.findIdx? (fun c => decide (c = '}')) with
  | some i, some ri =>
    let j := cs.length - 1 - ri
    if i < j then some (String.mk ((cs.drop i).take (j - i + 1))) else none
  | _, _ => none

/-- Shared body of the two JSON tiers of `#parseResponse`: read the
`category` / `destinationAccount` / `budget` properties of the parsed
value and classify each requested one against its known-name list (the
source repeats this block verbatim in tier 1 and tier 2). -/
def jsonTier (j : JValue) (categories existingAccounts budgets : List String)
    (autoDestinationAccount autoBudget : Bool) : ParseResult :=
  let category := fieldOfGet (jsGet j "category")
  let destinationAccount := fieldOfGet (jsGet j "destinationAccount")
  let budget := fieldOfGet (jsGet j "budget")
  let catPair := classifyCand categories category
  let base : ParseResult := { category := catPair.1, suggestedCategory := catPair.2 }
  let withDest :=
    if autoDestinationAccount then
      let destPair := classifyCand existingAccounts destinationAccount
      { base with destinationAccount := destPair.1, suggestedDestinationAccount := destPair.2 }
    else base
  if autoBudget then
    let budPair := classifyCand budgets budget
    { withDest with budget := budPair.1, suggestedBudget := budPair.2 }
  else withDest

/-- Pipe tier of `#parseResponse`, entered when `parts.length >= 2`:
destructure the trimmed parts as `[category, account, budget]` (the third
is `undefined` when only two parts exist) and classify; the account and
budget are used only when requested *and* truthy (non-empty). -/
def pipeTier (parts : List String) (categories existingAccounts budgets : List String)
    (autoDestinationAccount autoBudget : Bool) : ParseResult :=
  let category := jsTrim (parts.getD 0 "")
  let account := jsTrim (parts.getD 1 "")
  let budgetSeg : Option String := (parts.get? 2).map jsTrim
  let catPair := classifyCand categories (.val (.str category))
  let base : ParseResult := { category := catPair.1, suggestedCategory := catPair.2 }
  let withDest :=
    if autoDestinationAccount && !(account = "") then
      let destPair := classifyCand existingAccounts (.val (.str account))
      { base with destinationAccount := destPair.1, suggestedDestinationAccount := destPair.2 }
    else base
  match budgetSeg with
  | some b =>
    if autoBudget && !(b = "") then
      let budPair := classifyCand budgets (.val (.str b))
      { withDest with budget := budPair.1, suggestedBudget := budPair.2 }
    else withDest
  | none => withDest

/-- Last-resort tier of `#parseResponse`: the whole trimmed text is a bare
category candidate; requested account/budget resolved fields are set to
`null` and their suggested fields left absent. -/
def bareTier (cleanResponse : String) (categories : List String)
    (autoDestinationAccount autoBudget : Bool) : ParseResult :=
  let catPair := classifyCand categories (.val (.str cleanResponse))
  let base : ParseResult := { category := catPair.1, suggestedCategory := catPair.2 }
  let withDest :=
    if autoDestinationAccount then { base with destinationAccount := .val .null } else base
  if autoBudget then { withDest with budget := .val .null } else withDest

/-- Text fallback of `#parseResponse` (after both JSON attempts failed):
trim, split on the pipe character, and use the pipe tier when at least two
parts result, the bare-category tier otherwise. -/
def textFallback (response : String) (categories existingAccounts budgets : List String)
    (autoDestinationAccount autoBudget : Bool) : ParseResult :=
  let cleanResponse := jsTrim response
  let parts := (splitOnChar '|' cleanResponse.data).map String.mk
  if parts.length ≥ 2 then
    pipeTier parts categories existingAccounts budgets autoDestinationAccount autoBudget
  else
    bareTier cleanResponse categories autoDestinationAccount autoBudget

/-- The `catch` branch of `#parseResponse`: tier 2 parses the greedy
brace match; a missing match or a second parse error falls through to the
text tiers. -/
def jsonFallback (response : String) (categories existingAccounts budgets : List String)
    (autoDestinationAccount autoBudget : Bool) : ParseResult :=
  match braceMatch response with
  | some sub =>
    match jsonParse sub with
    | some j2 => jsonTier j2 categories existingAccounts budgets autoDestinationAccount autoBudget
    | none => textFallback response categories existingAccounts budgets autoDestinationAccount autoBudget
  | none => textFallback response categories existingAccounts budgets autoDestinationAccount autoBudget

/-- `OpenAiService.#parseResponse` (part_000 lines 483-592).  Tier 1
parses the whole text with `JSON.parse`; a parse error — or a parsed
`null`, whose property read throws inside the same `try` — falls through
to the `catch` branch (`jsonFallback`). -/
def parseResponse (response : String) (categories existingAccounts budgets : List String)
    (autoDestinationAccount autoBudget : Bool) : ParseResult :=
  match jsonParse response with
  | some .null =>
    jsonFallback response categories existingAccounts budgets autoDestinationAccount autoBudget
  | some j => jsonTier j categories existingAccounts budgets autoDestinationAccount autoBudget
  | none => jsonFallback response categories existingAccounts budgets autoDestinationAccount autoBudget

/-- Number of positional segments the pipe tier of the specification expects:
category, plus account if requested, plus budget if requested. -/
def specTier3Count (autoDestinationAccount autoBudget : Bool) : Nat :=
  1 + (if autoDestinationAccount then 1 else 0) + (if autoBudget then 1 else 0)

/-- Text tiers exactly as the specification words them (claim C1): split
on the pipe character and, only if exactly the expected number of
non-empty trimmed segments result, use them positionally; otherwise treat
the entire trimmed text as a bare category name.  Requested pairs with no
candidate are rendered as both-null, matching the worked example of the
specification for bare text with accounts requested. -/
def specTextTiers (t : String) (categories existingAccounts budgets : List String)
    (autoDestinationAccount autoBudget : Bool) : ParseResult :=
  let segs := ((splitOnChar '|' t.data).map (fun cs => jsTrim (String.mk cs))).filter
    (fun s => !(s = ""))
  if segs.length = specTier3Count autoDestinationAccount autoBudget then
    let catPair := classifyCand categories (.val (.str (segs.getD 0 "")))
    let base : ParseResult := { category := catPair.1, suggestedCategory := catPair.2 }
    let withDest :=
      if autoDestinationAccount then
        let destPair := classifyCand existingAccounts (.val (.str (segs.getD 1 "")))
        { base with destinationAccount := destPair.1, suggestedDestinationAccount := destPair.2 }
      else base
    if autoBudget then
      let idx := if autoDestinationAccount then 2 else 1
      let budPair := classifyCand budgets (.val (.str (segs.getD idx "")))
      { withDest with budget := budPair.1, suggestedBudget := budPair.2 }
    else withDest
  else bareTier t categories autoDestinationAccount autoBudget

/-- The response-parsing algorithm exactly as claim C1 states it: (1) the
entire trimmed text as a JSON *object*; (2) the greedy brace match as a
JSON object; (3) the pipe split, only on exactly the expected number of
non-empty segments; (4) the whole trimmed text as a bare category. -/
def specParseResponse (response : String) (categories existingAccounts budgets : List String)
    (autoDestinationAccount autoBudget : Bool) : ParseResult :=
  let t := jsTrim response
  match jsonParse t with
  | some (.obj fields) =>
    jsonTier (.obj fields) categories existingAccounts budgets autoDestinationAccount autoBudget
  | _ =>
    match braceMatch t with
    | some sub =>
      match jsonParse sub with
      | some (.obj fields) =>
        jsonTier (.obj fields) categories existingAccounts budgets autoDestinationAccount autoBudget
      | _ => specTextTiers t categories existingAccounts budgets autoDestinationAccount autoBudget
    | none => specTextTiers t categories existingAccounts budgets autoDestinationAccount autoBudget

/-- Amended tier 1: parse the entire text as any JSON value; the tier
fails on a parse error or on a parsed `null` (whose property read
throws); non-object values succeed with all keys read as absent. -/
def amendedTier1 (response : String) (categories existingAccounts budgets : List String)
    (autoDestinationAccount autoBudget : Bool) : Option ParseResult :=
  match jsonParse response with
  | some .null => none
  | some j => some (jsonTier j categories existingAccounts budgets autoDestinationAccount autoBudget)
  | none => none

/-- Amended tier 2: parse the greedy brace match as JSON, failing when no
match exists or the match does not parse. -/
def amendedTier2 (response : String) (categories existingAccounts budgets : List String)
    (autoDestinationAccount autoBudget : Bool) : Option ParseResult :=
  match braceMatch response with
  | some sub =>
    (jsonParse sub).map
      (fun j => jsonTier j categories existingAccounts budgets autoDestinationAccount autoBudget)
  | none => none

/-- Amended tier 3: split the trimmed text on the pipe character and
succeed whenever at least two parts result, using the first three parts
positionally (empty or missing account/budget segments are discarded). -/
def amendedTier3 (response : String) (categories existingAccounts budgets : List String)
    (autoDestinationAccount autoBudget : Bool) : Option ParseResult :=
  let parts := (splitOnChar '|' (jsTrim response).data).map String.mk
  if parts.length ≥ 2 then
    some (pipeTier parts categories existingAccounts budgets autoDestinationAccount autoBudget)
  else none

/-- Amended tier 4: the entire trimmed text as a bare category name. -/
def amendedTier4 (response : String) (categories : List String)
    (autoDestinationAccount autoBudget : Bool) : ParseResult :=
  bareTier (jsTrim response) categories autoDestinationAccount autoBudget

/-- The four amended strategies in strict order, first success winning. -/
def specParseResponseAmended (response : String)
    (categories existingAccounts budgets : List String)
    (autoDestinationAccount autoBudget : Bool) : ParseResult :=
  match amendedTier1 response categories existingAccounts budgets autoDestinationAccount autoBudget with
  | some res => res
  | none =>
    match amendedTier2 response categories existingAccounts budgets autoDestinationAccount autoBudget with
    | some res => res
    | none =>
      match amendedTier3 response categories existingAccounts budgets autoDestinationAccount autoBudget with
      | some res => res
      | none => amendedTier4 response categories autoDestinationAccount autoBudget

/-- `OllamaService.classify` result object after the guess of the model has
been post-processed (OllamaService.js lines 47-64): a known guess is
returned as the resolved category (no suggested key), an unknown guess as
`category: null` with the suggested category. -/
def ollamaClassifyResult (guess : String) (categories : List String) : ParseResult :=
  if categories.any (fun n => decide (n = guess)) then
    { category := .val (.str guess) }
  else
    { category := .val .null, suggestedCategory := .val (.str guess) }

/-- JavaScript truthiness of an optional string (an absent key is
`undefined`): only a present non-empty string is truthy. -/
def jsTruthyOptStr : Option String → Bool
  | some s => !(s = "")
  | none => false

/-- First transaction of a webhook payload as `#handleWebhook` reads it:
`type`, `description` and `destination_name` may each be absent. -/
structure WebhookTx where
  type : Option String := none
  description : Option String := none
  destination_name : Option String := none
  tags : Option (List String) := none
  transaction_journal_id : String := ""

/-- The `content` object of a webhook payload. -/
structure WebhookContent where
  id : Option String := none
  transactions : Option (List WebhookTx) := none

/-- A webhook request body (`req.body`); any field may be absent. -/
structure WebhookBody where
  trigger : Option String := none
  response : Option String := none
  content : Option WebhookContent := none

/-- Seed of the Job that `#handleWebhook` creates on success
(`createJob` with destination name and description). -/
structure JobSeed where
  destinationName : String
  description : String

/-- `App.#handleWebhook` validation (App.js lines 118-175): the checks in
source order; a thrown `WebhookException` — or the `TypeError` raised by
reading `transactions[0]` when the array is missing — is an `error`
result, produced before any job is created.  Only when every check passes
is the job seed returned. -/
def handleWebhook (b : WebhookBody) : Except String JobSeed :=
  if b.trigger = some "STORE_TRANSACTION" then
    if b.response = some "TRANSACTIONS" then
      match b.content with
      | none => .error "Missing content.id"
      | some c =>
        if jsTruthyOptStr c.id then
          if (match c.transactions with
              | some ts => decide (ts.length = 0)
              | none => false) then
            .error "No transactions are available in content.transactions"
          else
            match c.transactions with
            | none => .error "TypeError: Cannot read properties of undefined"
            | some [] => .error "TypeError: Cannot read properties of undefined"
            | some (t :: _) =>
              if t.type = some "withdrawal" ∨ t.type = some "deposit" then
                if jsTruthyOptStr t.description then
                  if jsTruthyOptStr t.destination_name then
                    .ok { destinationName := t.destination_name.getD "",
                          description := t.description.getD "" }
                  else .error "Missing content.transactions[0].destination_name"
                else .error "Missing content.transactions[0].description"
              else .error "type has to be withdrawal or deposit"
        else .error "Missing content.id"
    else .error "trigger is not TRANSACTION"
  else .error "trigger is not STORE_TRANSACTION"

/-- The validity conditions exactly as claim C5 lists them: trigger,
response, a non-empty transactions array, first type in withdrawal or
deposit, non-empty description and destination name.  (The `content.id`
check of the code is deliberately not part of this list.) -/
def claimPayloadValid (b : WebhookBody) : Bool :=
  decide (b.trigger = some "STORE_TRANSACTION") &&
  decide (b.response = some "TRANSACTIONS") &&
  (match b.content with
   | some c =>
     match c.transactions with
     | some (t :: _) =>
       (decide (t.type = some "withdrawal") || decide (t.type = some "deposit")) &&
       jsTruthyOptStr t.description && jsTruthyOptStr t.destination_name
     | _ => false
   | none => false)

/-- Whether an `Except` result is a success. -/
def exceptOk : Except String JobSeed → Bool
  | .ok _ => true
  | .error _ => false

/-- One transaction line as passed to the ledger writer (`transactions`
array of the webhook payload or of a fetched transaction). -/
structure TxLine where
  transaction_journal_id : String
  tags : Option (List String)

/-- One element of the `transactions` array of the update body the ledger
writer issues. -/
structure TxUpdate where
  transaction_journal_id : String
  category_id : Option String
  destination_id : Option String
  tags : List String

/-- The PUT body the ledger writer issues. -/
structure MutationBody where
  apply_rules : Bool
  fire_webhooks : Bool
  transactions : List TxUpdate

/-- `FireflyService.setCategory` (App.js lines 295-333): for every line,
take its tags (`null`/`undefined` becomes `[]`), push the marker tag, and
emit the update carrying the category id and the tags. -/
def setCategoryBody (tag : String) (transactions : List TxLine) (categoryId : String) :
    MutationBody :=
  { apply_rules := true, fire_webhooks := true,
    transactions := transactions.map (fun t =>
      { transaction_journal_id := t.transaction_journal_id,
        category_id := some categoryId,
        destination_id := none,
        tags := t.tags.getD [] ++ [tag] }) }

/-- `FireflyService.setCategoryAndDestination` (App.js lines 582-629):
like `setCategoryBody`, but the category and destination ids are included
only when truthy. -/
def setCategoryAndDestinationBody (tag : String) (transactions : List TxLine)
    (categoryId destinationAccountId : Option String) : MutationBody :=
  { apply_rules := true, fire_webhooks := true,
    transactions := transactions.map (fun t =>
      { transaction_journal_id := t.transaction_journal_id,
        category_id := if jsTruthyOptStr categoryId then categoryId else none,
        destination_id := if jsTruthyOptStr destinationAccountId then destinationAccountId else none,
        tags := t.tags.getD [] ++ [tag] }) }

/-- A tag object as returned by the transaction fetch of the ledger (the code
reads only its `name`). -/
structure TagObj where
  name : String

/-- One line of the update body issued by tag removal. -/
structure TagUpdateLine where
  transaction_journal_id : String
  tags : List TagObj

/-- The PUT body issued by tag removal. -/
structure RemoveTagBody where
  apply_rules : Bool
  fire_webhooks : Bool
  transactions : List TagUpdateLine

/-- Relevant attributes of the transaction fetched at the start of
`removeTagFromTransaction`: its current tags (possibly `null`) and the
journal id of its first line. -/
structure TxFetched where
  tags : Option (List TagObj)
  firstJournalId : String

/-- `FireflyService.removeTagFromTransaction` (App.js lines 471-523): the
transaction is re-read (the fetch outcome is the first argument); on a
successful read the write-back keeps exactly the current tags whose name
differs from the named tag, with `fire_webhooks` set to `false`. -/
def removeTagFromTransaction (fetch : Except String TxFetched) (tagName : String) :
    Except String RemoveTagBody :=
  match fetch with
  | .error e => .error e
  | .ok d =>
    .ok { apply_rules := true, fire_webhooks := false,
          transactions := [{ transaction_journal_id := d.firstJournalId,
                             tags := (d.tags.getD []).filter (fun t => !(t.name = tagName)) }] }

/-- The sentinel name the ledger uses for an unknown destination
account. -/
def sentinelUnknownDest : String := "(unknown destination account)"

/-- JavaScript template-literal interpolation of a possibly-null string:
`null` renders as the text "null". -/
def jsInterpOptStr : Option String → String
  | none => "null"
  | some s => s

/-- The `hasValidDestination` test of `OpenAiService.#getLanguageConfig`:
`destinationName && destinationName !== "(unknown destination account)"`. -/
def openAiHasValidDestination : Option String → Bool
  | none => false
  | some s => !(s = "") && !(s = sentinelUnknownDest)

/-- The language configuration object of `OpenAiService`. -/
structure LangConfig where
  promptIntro : String
  instruction : String
  subjectLanguage : String
  question : String
  accountInstruction : String
  accountsList : String
  budgetInstruction : String
  budgetsList : String

/-- `OpenAiService.#buildInstruction` (part_000 lines 463-481). -/
def openAiBuildInstruction (language : String)
    (autoDestinationAccount autoBudget : Bool) : String :=
  let fields :=
    ["\"category\": \"Category name\""] ++
    (if autoDestinationAccount then ["\"destinationAccount\": \"Account name\""] else []) ++
    (if autoBudget then ["\"budget\": \"Budget name\""] else [])
  let jsonFormat := "\x7b\n  " ++ String.intercalate ",\n  " fields ++ "\n\x7d"
  if language = "EN" then
    "Respond ONLY in the following JSON format:\n" ++ jsonFormat ++
    "\nFor the account name, use only the company/merchant/entity name (e.g., \x27Amazon\x27, \x27Generali\x27, \x27McDonald\x27s\x27), not the category + company name. For the budget, choose the most appropriate budget based on the category."
  else
    "Réponds UNIQUEMENT au format JSON suivant:\n" ++ jsonFormat ++
    "\nPour le nom du compte, utilise seulement le nom de l\x27entreprise/merchant/entité (ex: \x27Amazon\x27, \x27Generali\x27, \x27McDonald\x27s\x27), pas la catégorie + nom d\x27entreprise. Pour le budget, choisis le budget le plus approprié basé sur la catégorie."

/-- `OpenAiService.#getLanguageConfig` (part_000 lines 432-461): the
destination is rendered only when valid (non-null and not the sentinel). -/
def openAiLanguageConfig (language : String) (destinationName : Option String)
    (description ty : String) (existingAccounts : List String)
    (autoDestinationAccount : Bool) (budgets : List String) (autoBudget : Bool) :
    LangConfig :=
  let hasValidDestination := openAiHasValidDestination destinationName
  let destinationText :=
    if hasValidDestination then "de \"" ++ jsInterpOptStr destinationName ++ "\"" else ""
  let destinationTextEN :=
    if hasValidDestination then "from \"" ++ jsInterpOptStr destinationName ++ "\"" else ""
  if language = "EN" then
    { promptIntro := "I want to categorize transactions on my bank account.",
      instruction := openAiBuildInstruction language autoDestinationAccount autoBudget,
      subjectLanguage := "The subject is in English.",
      question := "In which category would a transaction (" ++ ty ++ ") " ++ destinationTextEN ++
        " with the subject \"" ++ description ++ "\" fall into?",
      accountInstruction := if autoDestinationAccount then
        "Also suggest the most appropriate destination account from the list below, or suggest a new account name if none match. Use only the company/merchant name:" else "",
      accountsList := if autoDestinationAccount then String.intercalate ", " existingAccounts else "",
      budgetInstruction := if autoBudget then
        "Also suggest the most appropriate budget from the list below based on the category. Use only the budget name:" else "",
      budgetsList := if autoBudget then String.intercalate ", " budgets else "" }
  else
    { promptIntro := "Je veux catégoriser les transactions de mon compte bancaire.",
      instruction := openAiBuildInstruction language autoDestinationAccount autoBudget,
      subjectLanguage := "Le sujet est en français.",
      question := "Dans quelle catégorie une transaction (" ++ ty ++ ") " ++ destinationText ++
        " avec le sujet \"" ++ description ++ "\" correspond-elle ?",
      accountInstruction := if autoDestinationAccount then
        "Suggère aussi le compte destinataire le plus approprié dans la liste ci-dessous, ou suggère un nouveau nom de compte si aucun ne correspond. Utilise seulement le nom de l\x27entreprise/merchant:" else "",
      accountsList := if autoDestinationAccount then String.intercalate ", " existingAccounts else "",
      budgetInstruction := if autoBudget then
        "Suggère aussi le budget le plus approprié dans la liste ci-dessous basé sur la catégorie. Utilise seulement le nom du budget:" else "",
      budgetsList := if autoBudget then String.intercalate ", " budgets else "" }

/-- `OpenAiService.#generatePrompt` (part_000 lines 390-420). -/
def openAiGeneratePrompt (language : String) (categories : List String)
    (destinationName : Option String) (description ty : String)
    (existingAccounts : List String) (autoDestinationAccount : Bool)
    (budgets : List String) (autoBudget : Bool) : String :=
  let cfg := openAiLanguageConfig language destinationName description ty
    existingAccounts autoDestinationAccount budgets autoBudget
  let base := "\n" ++ cfg.promptIntro ++ "\n" ++ cfg.instruction ++ "\n" ++
    cfg.subjectLanguage ++ "\n" ++ cfg.question ++ "\nThe categories are: \n\n" ++
    String.intercalate ", " categories ++ "\n"
  let withAccounts :=
    if autoDestinationAccount && decide (existingAccounts.length > 0) then
      base ++ "\n\n" ++ cfg.accountInstruction ++ "\n" ++ cfg.accountsList ++ "\n"
    else base
  if autoBudget && decide (budgets.length > 0) then
    withAccounts ++ "\n\n" ++ cfg.budgetInstruction ++ "\n" ++ cfg.budgetsList ++ "\n"
  else withAccounts

/-- `OllamaService.#getLanguageConfig` (OllamaService.js lines 95-111):
the destination name is interpolated into the question unconditionally —
there is no null or sentinel handling. -/
def ollamaQuestion (language : String) (destinationName : Option String)
    (description ty : String) : String :=
  if language = "EN" then
    "In which category would a transaction (" ++ ty ++ ") from \"" ++
      jsInterpOptStr destinationName ++ "\" with the subject \"" ++ description ++
      "\" fall into?"
  else
    "Dans quelle catégorie une transaction (" ++ ty ++ ") de \"" ++
      jsInterpOptStr destinationName ++ "\" avec le sujet \"" ++ description ++
      "\" correspond-elle ?"

/-- `OllamaService.#generatePrompt` (OllamaService.js lines 81-93). -/
def ollamaGeneratePrompt (language : String) (categories : List String)
    (destinationName : Option String) (description ty : String) : String :=
  let intro := if language = "EN" then
      "I want to categorize transactions on my bank account." else
      "Je veux catégoriser les transactions de mon compte bancaire."
  let instruction := if language = "EN" then
      "Just output the name of the category. Does not have to be a complete sentence. Ignore any long string of numbers or special characters." else
      "Donne simplement le nom de la catégorie. Pas de phrase complète. Ignore toute longue chaîne de chiffres ou de caractères spéciaux."
  let subjectLanguage := if language = "EN" then
      "The subject is in English." else "Le sujet est en français."
  "\n" ++ intro ++ "\n" ++ instruction ++ "\n" ++ subjectLanguage ++ "\n" ++
    ollamaQuestion language destinationName description ty ++
    "\nThe categories are: \n\n" ++ String.intercalate ", " categories ++ "\n"

/-- Whether the first list is an initial segment of the second. -/
def leadsWith : List Char → List Char → Bool
  | [], _ => true
  | _ :: _, [] => false
  | a :: as, b :: bs => a = b && leadsWith as bs

/-- Whether `needle` occurs as a contiguous substring of `hay`. -/
def strHasSub (hay needle : String) : Bool :=
  hay.data.tails.any (fun t => leadsWith needle.data t)

/-- Whether a JSON number lexeme denotes zero (every mantissa character
is a zero digit, sign or point). -/
def numLexemeZero (s : String) : Bool :=
  (s.data.takeWhile (fun c => !(c = 'e') && !(c = 'E'))).all
    (fun c => c = '0' || c = '-' || c = '.')

/-- JavaScript truthiness of a parsed JSON value. -/
def jvTruthy : JValue → Bool
  | .null => false
  | .bool b => b
  | .num lex => !(numLexemeZero lex)
  | .str s => !(s = "")
  | .arr _ => true
  | .obj _ => true

/-- JavaScript truthiness of a result field (`undefined`, `null` and
absent keys are falsy). -/
def fieldTruthy : FieldVal → Bool
  | .absent => false
  | .undef => false
  | .val v => jvTruthy v

/-- The string carried by a field value, when it is a string (the
orchestrator only passes such fields onward after a truthiness check, and
the parser only produces string candidates there). -/
def fieldNameString : FieldVal → String
  | .val (.str s) => s
  | _ => ""

/-- `categories.get(value)` on the name-to-identifier map fetched from
the ledger: only a string key can be present. -/
def lookupCategoryId (cats : List (String × String)) : FieldVal → Option String
  | .val (.str s) => (cats.find? (fun p => decide (p.1 = s))).map (·.2)
  | _ => none

/-- The external calls the queued job body can issue, in issue order. -/
inductive FireflyCall where
  | getCategories
  | classifyCall (categories : List String) (destinationName description ty : String)
  | createCategory (name : String)
  | setCategory (txId : String) (categoryId : Option String)
deriving DecidableEq

/-- Whether a call is a category-creation call. -/
def isCreateCall : FireflyCall → Bool
  | .createCategory _ => true
  | _ => false

/-- Terminal state of a job run by the queue worker. -/
inductive JobState where
  | finished
  | errored (message : String)
deriving DecidableEq

/-- Outcomes of the external calls a single job can make, injected so the
job body is a pure function: the fetched category map, the
classification, the id returned by category creation, and the write
outcome. -/
structure JobPipelineEnv where
  categoriesResult : Except String (List (String × String))
  classifyResult : Except String ParseResult
  createCategoryResult : String → Except String String
  setCategoryResult : Except String Unit

/-- The `try` block of the queued task of `App.#handleWebhook` (App.js
lines 177-226): fetch categories, classify, then either write the
resolved category, or create the suggested category and write the
returned id, or write nothing.  Returns the calls issued in order and the
outcome the `catch` sees. -/
def pipelineBody (env : JobPipelineEnv) (txId destinationName description ty : String) :
    List FireflyCall × Except String Unit :=
  match env.categoriesResult with
  | .error e => ([.getCategories], .error e)
  | .ok cats =>
    let names := cats.map (·.1)
    let calls0 := [.getCategories, .classifyCall names destinationName description ty]
    match env.classifyResult with
    | .error e => (calls0, .error e)
    | .ok r =>
      if fieldTruthy r.category then
        let callsW := calls0 ++ [.setCategory txId (lookupCategoryId cats r.category)]
        match env.setCategoryResult with
        | .error e => (callsW, .error e)
        | .ok _ => (callsW, .ok ())
      else if fieldTruthy r.suggestedCategory then
        let name := fieldNameString r.suggestedCategory
        match env.createCategoryResult name with
        | .error e => (calls0 ++ [.createCategory name], .error e)
        | .ok newId =>
          let callsW := calls0 ++ [.createCategory name, .setCategory txId (some newId)]
          match env.setCategoryResult with
          | .error e => (callsW, .error e)
          | .ok _ => (callsW, .ok ())
      else (calls0, .ok ())

/-- The whole queued task (App.js lines 177-232): the `catch` block turns
any failure of the body into the `Errored` job state carrying the error
message; a successful body ends the job `Finished`. -/
def runJobTask (env : JobPipelineEnv) (txId destinationName description ty : String) :
    List FireflyCall × JobState :=
  match pipelineBody env txId destinationName description ty with
  | (calls, .ok _) => (calls, .finished)
  | (calls, .error e) => (calls, .errored e)

/-- One job sitting in the work queue. -/
structure QueuedJob where
  env : JobPipelineEnv
  txId : String
  destinationName : String
  description : String
  ty : String

/-- Modelled from the spec: the Work Queue of §4.1 (the external `queue`
package, not part of the repository sources) runs tasks one at a time in
FIFO order, and a task failure is caught and reported without stopping
the queue, so every queued job is executed. -/
def runQueue (jobs : List QueuedJob) : List (List FireflyCall × JobState) :=
  jobs.map (fun q => runJobTask q.env q.txId q.destinationName q.description q.ty)

/-- Whether a result field holds a proper value, i.e. is neither absent
nor `undefined` nor `null` (the sense in which the specification says a
field is non-null). -/
def FieldVal.nonNull : FieldVal → Bool
  | .absent => false
  | .undef => false
  | .val .null => false
  | .val _ => true

/-- Whether a result field is absent from the result object. -/
def FieldVal.isAbsent : FieldVal → Bool
  | .absent => true
  | _ => false

/-- A resolved field is sound when, if it holds a string, that string is
a known name. -/
def memberIfStr (names : List String) : FieldVal → Bool
  | .val (.str s) => names.any (fun n => decide (n = s))
  | _ => true

/-- A suggested field is sound when, if it holds a string, that string is
not a known name. -/
def notMemberIfStr (names : List String) : FieldVal → Bool
  | .val (.str s) => !(names.any (fun n => decide (n = s)))
  | _ => true

/-- At most one of a resolved/suggested pair holds a proper value. -/
def pairAtMostOne (a b : FieldVal) : Bool :=
  !(a.nonNull && b.nonNull)

-- Ledger-writer sample inputs for the concrete theorems below.

/-- A transaction line that already carries the default marker tag. -/
def taggedLine : TxLine :=
  { transaction_journal_id := "j1", tags := some ["AI categorized"] }

/-- A satisfiable first transaction for the webhook samples. -/
def sampleTx : WebhookTx :=
  { type := some "withdrawal", description := some "d", destination_name := some "n" }

/-- A fully valid webhook body. -/
def sampleValidBody : WebhookBody :=
  { trigger := some "STORE_TRANSACTION", response := some "TRANSACTIONS",
    content := some { id := some "1", transactions := some [sampleTx] } }

/-- A webhook body meeting every condition of claim C5 but with
`content.id` absent. -/
def sampleNoIdBody : WebhookBody :=
  { trigger := some "STORE_TRANSACTION", response := some "TRANSACTIONS",
    content := some { id := none, transactions := some [sampleTx] } }

/-- C4 counterexample: applying `setCategory` to a line whose tag list
already contains the marker tag "AI categorized" issues a mutation in
which that line carries the tag twice, not once as the claim states. -/
theorem setCategory_duplicates_marker_tag :
    (setCategoryBody "AI categorized" [taggedLine] "7").transactions.map TxUpdate.tags =
      [["AI categorized", "AI categorized"]] ∧
    (["AI categorized", "AI categorized"] : List String).count "AI categorized" = 2 := by
  constructor
  · rfl
  · rfl

/-- C4 (amended): both ledger-writer operations append the marker tag to
every line unconditionally — the issued tag list is the tag list of the line
(null becoming empty) plus one trailing occurrence of the marker tag, so
a line already carrying the tag carries one more occurrence, while counts
of every other tag are unchanged. -/
theorem marker_tag_appended_unconditionally (tag : String) (lines : List TxLine)
    (categoryId : String) (catOpt destOpt : Option String) (other : String) :
    ((setCategoryBody tag lines categoryId).transactions.map TxUpdate.tags =
      lines.map (fun t => t.tags.getD [] ++ [tag])) ∧
    ((setCategoryAndDestinationBody tag lines catOpt destOpt).transactions.map TxUpdate.tags =
      lines.map (fun t => t.tags.getD [] ++ [tag])) ∧
    ((setCategoryBody tag lines categoryId).transactions.map (fun u => u.tags.count tag) =
      lines.map (fun t => (t.tags.getD []).count tag + 1)) ∧
    (other ≠ tag →
      (setCategoryBody tag lines categoryId).transactions.map (fun u => u.tags.count other) =
        lines.map (fun t => (t.tags.getD []).count other)) := by
  refine ⟨?_, ?_, ?_, ?_⟩
  · simp [setCategoryBody, List.map_map, Function.comp]
  · simp [setCategoryAndDestinationBody, List.map_map, Function.comp]
  · simp [setCategoryBody, List.map_map, Function.comp, List.count_append]
  · intro hne
    simp [setCategoryBody, List.map_map, Function.comp, List.count_append,
      List.count_singleton, hne]

/-- C4 amended witness: the duplicate-append behaviour evaluated on the
already-tagged sample line. -/
theorem marker_tag_appended_unconditionally_witness :
    ("x" : String) ≠ "AI categorized" ∧
    (setCategoryBody "AI categorized" [taggedLine] "7").transactions.map
        (fun u => u.tags.count "x") =
      [taggedLine].map (fun t => (t.tags.getD []).count "x") :=
  ⟨by decide,
    (marker_tag_appended_unconditionally "AI categorized" [taggedLine] "7" none none "x").2.2.2
      (by decide)⟩

/-- C5: a job seed is produced by the webhook handler only if the payload
satisfies every condition the claim lists (trigger, response, non-empty
transactions, withdrawal/deposit type, non-empty description and
destination name); every violation yields an error before any job
exists. -/
theorem webhook_ok_implies_claim_conditions (b : WebhookBody) (j : JobSeed)
    (h : handleWebhook b = .ok j) : claimPayloadValid b = true := by
  unfold handleWebhook at h
  split at h
  rotate_left
  · simp at h
  split at h
  rotate_left
  · simp at h
  split at h
  · simp at h
  rename_i c hc
  split at h
  rotate_left
  · simp at h
  split at h
  · simp at h
  split at h
  · simp at h
  · simp at h
  rename_i t rest htx
  split at h
  rotate_left
  · simp at h
  rename_i hty
  split at h
  rotate_left
  · simp at h
  rename_i hdesc
  split at h
  rotate_left
  · simp at h
  rename_i hdest
  rcases hty with hty | hty <;> simp_all [claimPayloadValid, jsTruthyOptStr]

/-- C5 witness: the sample valid body is accepted and satisfies the
condition list of the claim. -/
theorem webhook_ok_implies_claim_conditions_witness :
    claimPayloadValid sampleValidBody = true :=
  webhook_ok_implies_claim_conditions sampleValidBody
    { destinationName := "n", description := "d" } rfl

/-- C10: a payload whose `content.id` is absent is rejected (no job seed)
whatever the rest of the payload looks like — in particular even when
every condition listed in the specification holds. -/
theorem missing_content_id_rejected (b : WebhookBody) (c : WebhookContent)
    (h1 : b.content = some c) (h2 : c.id = none) :
    exceptOk (handleWebhook b) = false := by
  unfold handleWebhook
  split
  · split
    · simp [h1, h2, jsTruthyOptStr, exceptOk]
    · rfl
  · rfl

/-- C10 witness: the sample body that is valid except for the missing
`content.id` is rejected. -/
theorem missing_content_id_rejected_witness :
    exceptOk (handleWebhook sampleNoIdBody) = false :=
  missing_content_id_rejected sampleNoIdBody
    { id := none, transactions := some [sampleTx] } rfl rfl

/-- C9: on a successful re-read, tag removal issues exactly one update
line whose tags are the current tags minus every tag carrying the removed
name (all others kept), with rule application on and notification hooks
(`fire_webhooks`) off. -/
theorem remove_tag_filters_and_disables_hooks (fetched : TxFetched) (tagName : String) :
    ∃ line : TagUpdateLine,
      removeTagFromTransaction (.ok fetched) tagName =
        .ok { apply_rules := true, fire_webhooks := false, transactions := [line] } ∧
      line.transaction_journal_id = fetched.firstJournalId ∧
      ∀ t : TagObj, t ∈ line.tags ↔ t ∈ fetched.tags.getD [] ∧ t.name ≠ tagName := by
  refine ⟨{ transaction_journal_id := fetched.firstJournalId,
            tags := (fetched.tags.getD []).filter (fun t => !(t.name = tagName)) }, rfl, rfl, ?_⟩
  intro t
  simp [List.mem_filter]

/-- A job environment whose classification suggests the unknown category
"Snacks" and whose ledger calls succeed. -/
def sampleJobEnv : JobPipelineEnv :=
  { categoriesResult := .ok [("Food", "1")],
    classifyResult := .ok { category := .val .null, suggestedCategory := .val (.str "Snacks") },
    createCategoryResult := fun _ => .ok "42",
    setCategoryResult := .ok () }

/-- A job environment whose very first ledger call fails. -/
def sampleFailingEnv : JobPipelineEnv :=
  { categoriesResult := .error "getCategories failed",
    classifyResult := .ok {},
    createCategoryResult := fun _ => .ok "1",
    setCategoryResult := .ok () }

/-- The failing sample job as queued. -/
def sampleFailingJob : QueuedJob :=
  { env := sampleFailingEnv, txId := "1", destinationName := "dn",
    description := "d", ty := "withdrawal" }

/-- C6: when classification yields no resolved category but a suggested
category name (in particular one not in the category map fetched at the
start of the job) and the ledger calls succeed, the job issues exactly
one category-creation call, it precedes the transaction write, and the
write carries exactly the identifier the creation call returned. -/
theorem suggested_category_created_once_before_write
    (env : JobPipelineEnv) (txId dn desc ty : String)
    (cats : List (String × String)) (r : ParseResult) (s newId : String)
    (hcats : env.categoriesResult = .ok cats)
    (hr : env.classifyResult = .ok r)
    (hcat : fieldTruthy r.category = false)
    (hsug : r.suggestedCategory = .val (.str s))
    (hs : s ≠ "")
    (hnotmem : ∀ p ∈ cats, p.1 ≠ s)
    (hcreate : env.createCategoryResult s = .ok newId)
    (hwrite : env.setCategoryResult = .ok ()) :
    (runJobTask env txId dn desc ty).1 =
      [.getCategories, .classifyCall (cats.map (·.1)) dn desc ty,
       .createCategory s, .setCategory txId (some newId)] ∧
    (runJobTask env txId dn desc ty).1.filter isCreateCall = [.createCategory s] ∧
    (runJobTask env txId dn desc ty).2 = .finished := by
  have hsugT : fieldTruthy r.suggestedCategory = true := by
    rw [hsug]; simp [fieldTruthy, jvTruthy, hs]
  have hname : fieldNameString r.suggestedCategory = s := by
    rw [hsug]; rfl
  unfold runJobTask pipelineBody
  simp only [hcats, hr, hcat, hsugT, hname, hcreate, hwrite]
  simp [isCreateCall, List.filter]

/-- C6 witness: the sample environment creates "Snacks" once, before the
write, which applies the returned identifier "42". -/
theorem suggested_category_created_once_before_write_witness :
    (runJobTask sampleJobEnv "9" "Amazon" "desc" "withdrawal").1 =
      [.getCategories, .classifyCall ["Food"] "Amazon" "desc" "withdrawal",
       .createCategory "Snacks", .setCategory "9" (some "42")] ∧
    (runJobTask sampleJobEnv "9" "Amazon" "desc" "withdrawal").1.filter isCreateCall =
      [.createCategory "Snacks"] ∧
    (runJobTask sampleJobEnv "9" "Amazon" "desc" "withdrawal").2 = .finished :=
  suggested_category_created_once_before_write sampleJobEnv "9" "Amazon" "desc"
    "withdrawal" [("Food", "1")]
    { category := .val .null, suggestedCategory := .val (.str "Snacks") }
    "Snacks" "42" rfl rfl rfl rfl (by decide) (by decide) rfl rfl

/-- C7: any failure of the job body is caught inside the task — the job
ends in the `Errored` state carrying the error message — and the queue
still runs every other queued job, before and after, to its own outcome
(spec-modelled queue semantics, single worker, FIFO). -/
theorem job_failure_recorded_and_queue_continues
    (pre post : List QueuedJob) (q : QueuedJob) (e : String)
    (h : (pipelineBody q.env q.txId q.destinationName q.description q.ty).2 = .error e) :
    (runJobTask q.env q.txId q.destinationName q.description q.ty).2 = .errored e ∧
    runQueue (pre ++ q :: post) =
      runQueue pre ++
        runJobTask q.env q.txId q.destinationName q.description q.ty :: runQueue post := by
  constructor
  · unfold runJobTask
    rcases hp : pipelineBody q.env q.txId q.destinationName q.description q.ty with ⟨calls, res⟩
    rw [hp] at h
    simp at h
    rw [h]
  · simp [runQueue]

/-- C7 witness: the failing sample job ends `Errored` with its message
and a queue holding only it still produces its outcome. -/
theorem job_failure_recorded_and_queue_continues_witness :
    (runJobTask sampleFailingJob.env sampleFailingJob.txId sampleFailingJob.destinationName
        sampleFailingJob.description sampleFailingJob.ty).2 =
      .errored "getCategories failed" ∧
    runQueue ([] ++ sampleFailingJob :: []) =
      runQueue [] ++
        runJobTask sampleFailingJob.env sampleFailingJob.txId sampleFailingJob.destinationName
          sampleFailingJob.description sampleFailingJob.ty :: runQueue [] :=
  job_failure_recorded_and_queue_continues [] [] sampleFailingJob "getCategories failed" rfl

set_option maxRecDepth 100000 in
/-- C8 counterexample: the local (Ollama) provider does not exclude the
sentinel destination from its prompt — the sentinel text appears verbatim
in the generated prompt, and the prompt differs from the one generated
with no destination at all. -/
theorem ollama_sentinel_destination_not_excluded :
    strHasSub (ollamaGeneratePrompt "EN" ["F"] (some sentinelUnknownDest) "x" "w")
      sentinelUnknownDest = true ∧
    ollamaGeneratePrompt "EN" ["F"] (some sentinelUnknownDest) "x" "w" ≠
      ollamaGeneratePrompt "EN" ["F"] none "x" "w" := by
  constructor
  · decide
  · decide

/-- C8 (amended): the remote (OpenAI) provider treats a null or sentinel
destination as unknown — the generated prompt is exactly the prompt
generated with no destination; the local provider has no such handling
(see the counterexample). -/
theorem openai_sentinel_destination_excluded
    (language : String) (categories : List String) (destinationName : Option String)
    (description ty : String) (existingAccounts : List String)
    (autoDestinationAccount : Bool) (budgets : List String) (autoBudget : Bool)
    (h : destinationName = none ∨ destinationName = some sentinelUnknownDest) :
    openAiGeneratePrompt language categories destinationName description ty
      existingAccounts autoDestinationAccount budgets autoBudget =
    openAiGeneratePrompt language categories none description ty
      existingAccounts autoDestinationAccount budgets autoBudget := by
  have hv : openAiHasValidDestination destinationName = false := by
    rcases h with h | h <;> subst h <;> simp [openAiHasValidDestination]
  unfold openAiGeneratePrompt openAiLanguageConfig
  rw [hv]
  rfl

/-- C8 amended witness: the OpenAI prompt for the sentinel destination
equals the prompt for no destination on concrete inputs. -/
theorem openai_sentinel_destination_excluded_witness :
    openAiGeneratePrompt "EN" ["F"] (some sentinelUnknownDest) "x" "w" [] false [] false =
    openAiGeneratePrompt "EN" ["F"] none "x" "w" [] false [] false :=
  openai_sentinel_destination_excluded "EN" ["F"] (some sentinelUnknownDest) "x" "w"
    [] false [] false (Or.inr rfl)

-- Soundness bundle for parser results, used by the parser claims.

/-- The three properties the parser tiers establish together: resolved
fields hold only known names and suggested fields only unknown names (for
all three pairs), at most one field of each pair holds a proper value,
and unrequested pairs are entirely absent. -/
def goodResult (r : ParseResult) (categories existingAccounts budgets : List String)
    (autoDestinationAccount autoBudget : Bool) : Bool :=
  memberIfStr categories r.category &&
  notMemberIfStr categories r.suggestedCategory &&
  memberIfStr existingAccounts r.destinationAccount &&
  notMemberIfStr existingAccounts r.suggestedDestinationAccount &&
  memberIfStr budgets r.budget &&
  notMemberIfStr budgets r.suggestedBudget &&
  pairAtMostOne r.category r.suggestedCategory &&
  pairAtMostOne r.destinationAccount r.suggestedDestinationAccount &&
  pairAtMostOne r.budget r.suggestedBudget &&
  (autoDestinationAccount ||
    (r.destinationAccount.isAbsent && r.suggestedDestinationAccount.isAbsent)) &&
  (autoBudget || (r.budget.isAbsent && r.suggestedBudget.isAbsent))

theorem memberIfStr_of_memStr_true (names : List String) (cand : FieldVal)
    (h : memStr names cand = true) : memberIfStr names cand = true := by
  cases cand with
  | absent => rfl
  | undef => rfl
  | val v =>
    cases v with
    | null => rfl
    | bool b => rfl
    | num l => rfl
    | str s => simpa [memberIfStr, memStr] using h
    | arr a => rfl
    | obj o => rfl

theorem notMemberIfStr_of_memStr_false (names : List String) (cand : FieldVal)
    (h : memStr names cand = false) : notMemberIfStr names cand = true := by
  cases cand with
  | absent => rfl
  | undef => rfl
  | val v =>
    cases v with
    | null => rfl
    | bool b => rfl
    | num l => rfl
    | str s => simp [memStr] at h; simpa [notMemberIfStr] using h
    | arr a => rfl
    | obj o => rfl

theorem memberIfStr_absent (names : List String) : memberIfStr names .absent = true := rfl

theorem notMemberIfStr_absent (names : List String) : notMemberIfStr names .absent = true := rfl

theorem memberIfStr_valNull (names : List String) : memberIfStr names (.val .null) = true := rfl

theorem notMemberIfStr_valNull (names : List String) : notMemberIfStr names (.val .null) = true := rfl

theorem isAbsent_absent : FieldVal.isAbsent .absent = true := rfl

theorem pairAtMostOne_absent_left (b : FieldVal) : pairAtMostOne .absent b = true := by
  simp [pairAtMostOne, FieldVal.nonNull]

theorem pairAtMostOne_absent_right (a : FieldVal) : pairAtMostOne a .absent = true := by
  simp [pairAtMostOne, FieldVal.nonNull]

theorem pairAtMostOne_valNull_left (b : FieldVal) : pairAtMostOne (.val .null) b = true := by
  simp [pairAtMostOne, FieldVal.nonNull]

theorem classifyCand_fst_sound (names : List String) (cand : FieldVal) :
    memberIfStr names (classifyCand names cand).1 = true := by
  unfold classifyCand
  by_cases h : memStr names cand = true
  · simp only [h, if_true]
    exact memberIfStr_of_memStr_true names cand h
  · simp only [h, if_false, Bool.not_eq_true]
    rfl

theorem classifyCand_snd_sound (names : List String) (cand : FieldVal) :
    notMemberIfStr names (classifyCand names cand).2 = true := by
  unfold classifyCand
  by_cases h : memStr names cand = true
  · simp only [h, if_true]
    rfl
  · simp only [h, if_false, Bool.not_eq_true]
    exact notMemberIfStr_of_memStr_false names cand (by simpa using h)

theorem classifyCand_atMostOne (names : List String) (cand : FieldVal) :
    pairAtMostOne (classifyCand names cand).1 (classifyCand names cand).2 = true := by
  unfold classifyCand
  by_cases h : memStr names cand = true <;>
    simp [h, pairAtMostOne, FieldVal.nonNull]

theorem jsonTier_good (j : JValue) (categories existingAccounts budgets : List String)
    (autoDestinationAccount autoBudget : Bool) :
    goodResult (jsonTier j categories existingAccounts budgets autoDestinationAccount autoBudget)
      categories existingAccounts budgets autoDestinationAccount autoBudget = true := by
  cases autoDestinationAccount <;> cases autoBudget <;>
    simp [jsonTier, goodResult, classifyCand_fst_sound, classifyCand_snd_sound,
      classifyCand_atMostOne, memberIfStr_absent, notMemberIfStr_absent,
      memberIfStr_valNull, notMemberIfStr_valNull, isAbsent_absent,
      pairAtMostOne_absent_left, pairAtMostOne_absent_right, pairAtMostOne_valNull_left]

theorem pipeTier_good (parts : List String)
    (categories existingAccounts budgets : List String)
    (autoDestinationAccount autoBudget : Bool) :
    goodResult (pipeTier parts categories existingAccounts budgets
        autoDestinationAccount autoBudget)
      categories existingAccounts budgets autoDestinationAccount autoBudget = true := by
  unfold pipeTier
  rcases hbs : (parts.get? 2).map jsTrim with _ | b
  · by_cases hacc : jsTrim (parts[1]?.getD "") = "" <;>
      cases autoDestinationAccount <;> cases autoBudget <;>
        simp [hbs, hacc, goodResult, classifyCand_fst_sound, classifyCand_snd_sound,
          classifyCand_atMostOne, memberIfStr_absent, notMemberIfStr_absent,
          memberIfStr_valNull, notMemberIfStr_valNull, isAbsent_absent,
          pairAtMostOne_absent_left, pairAtMostOne_absent_right, pairAtMostOne_valNull_left]
  · by_cases hacc : jsTrim (parts[1]?.getD "") = "" <;>
      by_cases hb : b = "" <;>
        cases autoDestinationAccount <;> cases autoBudget <;>
          simp [hbs, hacc, hb, goodResult, classifyCand_fst_sound, classifyCand_snd_sound,
            classifyCand_atMostOne, memberIfStr_absent, notMemberIfStr_absent,
            memberIfStr_valNull, notMemberIfStr_valNull, isAbsent_absent,
            pairAtMostOne_absent_left, pairAtMostOne_absent_right, pairAtMostOne_valNull_left]

theorem bareTier_good (cleanResponse : String)
    (categories existingAccounts budgets : List String)
    (autoDestinationAccount autoBudget : Bool) :
    goodResult (bareTier cleanResponse categories autoDestinationAccount autoBudget)
      categories existingAccounts budgets autoDestinationAccount autoBudget = true := by
  cases autoDestinationAccount <;> cases autoBudget <;>
    simp [bareTier, goodResult, classifyCand_fst_sound, classifyCand_snd_sound,
      classifyCand_atMostOne, memberIfStr_absent, notMemberIfStr_absent,
      memberIfStr_valNull, notMemberIfStr_valNull, isAbsent_absent,
      pairAtMostOne_absent_left, pairAtMostOne_absent_right, pairAtMostOne_valNull_left]

theorem textFallback_good (response : String)
    (categories existingAccounts budgets : List String)
    (autoDestinationAccount autoBudget : Bool) :
    goodResult (textFallback response categories existingAccounts budgets
        autoDestinationAccount autoBudget)
      categories existingAccounts budgets autoDestinationAccount autoBudget = true := by
  simp only [textFallback]
  by_cases hp : ((splitOnChar '|' (jsTrim response).data).map String.mk).length ≥ 2
  · rw [if_pos hp]
    exact pipeTier_good _ categories existingAccounts budgets _ _
  · rw [if_neg hp]
    exact bareTier_good _ categories existingAccounts budgets _ _

theorem jsonFallback_good (response : String)
    (categories existingAccounts budgets : List String)
    (autoDestinationAccount autoBudget : Bool) :
    goodResult (jsonFallback response categories existingAccounts budgets
        autoDestinationAccount autoBudget)
      categories existingAccounts budgets autoDestinationAccount autoBudget = true := by
  unfold jsonFallback
  split
  · split
    · exact jsonTier_good _ categories existingAccounts budgets _ _
    · exact textFallback_good response categories existingAccounts budgets _ _
  · exact textFallback_good response categories existingAccounts budgets _ _

theorem parseResponse_good (response : String)
    (categories existingAccounts budgets : List String)
    (autoDestinationAccount autoBudget : Bool) :
    goodResult (parseResponse response categories existingAccounts budgets
        autoDestinationAccount autoBudget)
      categories existingAccounts budgets autoDestinationAccount autoBudget = true := by
  unfold parseResponse
  split
  · exact jsonFallback_good response categories existingAccounts budgets _ _
  · exact jsonTier_good _ categories existingAccounts budgets _ _
  · exact jsonFallback_good response categories existingAccounts budgets _ _

theorem textFallback_eq_tier34 (response : String)
    (categories existingAccounts budgets : List String)
    (autoDestinationAccount autoBudget : Bool) :
    textFallback response categories existingAccounts budgets
        autoDestinationAccount autoBudget =
      (match amendedTier3 response categories existingAccounts budgets
          autoDestinationAccount autoBudget with
       | some res => res
       | none => amendedTier4 response categories autoDestinationAccount autoBudget) := by
  simp only [textFallback, amendedTier3, amendedTier4]
  by_cases hp : ((splitOnChar '|' (jsTrim response).data).map String.mk).length ≥ 2
  · rw [if_pos hp, if_pos hp]
  · rw [if_neg hp, if_neg hp]

theorem jsonFallback_eq_tier234 (response : String)
    (categories existingAccounts budgets : List String)
    (autoDestinationAccount autoBudget : Bool) :
    jsonFallback response categories existingAccounts budgets
        autoDestinationAccount autoBudget =
      (match amendedTier2 response categories existingAccounts budgets
          autoDestinationAccount autoBudget with
       | some res => res
       | none =>
         match amendedTier3 response categories existingAccounts budgets
             autoDestinationAccount autoBudget with
         | some res => res
         | none => amendedTier4 response categories autoDestinationAccount autoBudget) := by
  unfold jsonFallback amendedTier2
  cases hb : braceMatch response with
  | none =>
    exact textFallback_eq_tier34 response categories existingAccounts budgets _ _
  | some sub =>
    dsimp only
    cases hj : jsonParse sub with
    | none =>
      exact textFallback_eq_tier34 response categories existingAccounts budgets _ _
    | some j2 =>
      rfl

/-- C1 counterexample: on the raw text "Food|Amazon" with neither account
nor budget requested, the algorithm of the specification demands two non-empty
segments to be rejected (expected count is one) and the whole text to
become the bare category candidate, but the pipe tier of the code fires on any
split of length at least two and takes "Food" as the candidate — the two
results differ. -/
theorem pipe_tier_ignores_expected_count :
    (parseResponse "Food|Amazon" [] [] [] false false).suggestedCategory =
      FieldVal.val (JValue.str "Food") ∧
    (specParseResponse "Food|Amazon" [] [] [] false false).suggestedCategory =
      FieldVal.val (JValue.str "Food|Amazon") ∧
    parseResponse "Food|Amazon" [] [] [] false false ≠
      specParseResponse "Food|Amazon" [] [] [] false false := by
  refine ⟨rfl, rfl, ?_⟩
  intro h
  have h2 := congrArg ParseResult.suggestedCategory h
  have e1 : (parseResponse "Food|Amazon" [] [] [] false false).suggestedCategory =
      FieldVal.val (JValue.str "Food") := rfl
  have e2 : (specParseResponse "Food|Amazon" [] [] [] false false).suggestedCategory =
      FieldVal.val (JValue.str "Food|Amazon") := rfl
  rw [e1, e2] at h2
  injection h2 with h3
  injection h3 with h4
  exact absurd h4 (by decide)

/-- C1 (amended): the parser applies four strategies in strict order,
first success winning, where (1) parses the entire text as any JSON value
and fails only on a parse error or a parsed null, (2) parses the greedy
brace match, (3) fires whenever splitting the trimmed text on the pipe
character yields at least two segments, using the first three positionally
with empty or missing account/budget segments discarded, and (4) treats
the entire trimmed text as a bare category name. -/
theorem parse_response_follows_amended_tiers (response : String)
    (categories existingAccounts budgets : List String)
    (autoDestinationAccount autoBudget : Bool) :
    parseResponse response categories existingAccounts budgets
        autoDestinationAccount autoBudget =
      specParseResponseAmended response categories existingAccounts budgets
        autoDestinationAccount autoBudget := by
  unfold parseResponse specParseResponseAmended amendedTier1
  cases h : jsonParse response with
  | none =>
    exact jsonFallback_eq_tier234 response categories existingAccounts budgets _ _
  | some v =>
    cases v with
    | null => exact jsonFallback_eq_tier234 response categories existingAccounts budgets _ _
    | bool b => rfl
    | num l => rfl
    | str s => rfl
    | arr a => rfl
    | obj o => rfl

/-- C2 counterexample: on "Food|" with accounts requested, the pipe tier
extracts the empty account segment, which is not a member of the (empty)
known-account set, yet neither destination field is set — the non-member
candidate is not returned in the suggested field. -/
theorem empty_pipe_segment_not_suggested :
    (parseResponse "Food|" ["Food"] [] [] true false).destinationAccount =
      FieldVal.absent ∧
    (parseResponse "Food|" ["Food"] [] [] true false).suggestedDestinationAccount =
      FieldVal.absent ∧
    ([] : List String).any (fun n => decide (n = "")) = false :=
  ⟨rfl, rfl, rfl⟩

/-- C2 (amended): every string placed in a resolved field is a member of
the corresponding known-name set and every string placed in a suggested
field is a non-member; a pair that was not requested is omitted entirely
(and the same membership dichotomy holds for the classification the
local provider applies to its guess).  Empty pipe-tier candidate segments are
discarded rather than suggested. -/
theorem parse_classifies_by_membership (response guess : String)
    (categories existingAccounts budgets : List String)
    (autoDestinationAccount autoBudget : Bool) :
    memberIfStr categories
      (parseResponse response categories existingAccounts budgets
        autoDestinationAccount autoBudget).category = true ∧
    notMemberIfStr categories
      (parseResponse response categories existingAccounts budgets
        autoDestinationAccount autoBudget).suggestedCategory = true ∧
    memberIfStr existingAccounts
      (parseResponse response categories existingAccounts budgets
        autoDestinationAccount autoBudget).destinationAccount = true ∧
    notMemberIfStr existingAccounts
      (parseResponse response categories existingAccounts budgets
        autoDestinationAccount autoBudget).suggestedDestinationAccount = true ∧
    memberIfStr budgets
      (parseResponse response categories existingAccounts budgets
        autoDestinationAccount autoBudget).budget = true ∧
    notMemberIfStr budgets
      (parseResponse response categories existingAccounts budgets
        autoDestinationAccount autoBudget).suggestedBudget = true ∧
    (autoDestinationAccount ||
      ((parseResponse response categories existingAccounts budgets
          autoDestinationAccount autoBudget).destinationAccount.isAbsent &&
        (parseResponse response categories existingAccounts budgets
          autoDestinationAccount autoBudget).suggestedDestinationAccount.isAbsent)) = true ∧
    (autoBudget ||
      ((parseResponse response categories existingAccounts budgets
          autoDestinationAccount autoBudget).budget.isAbsent &&
        (parseResponse response categories existingAccounts budgets
          autoDestinationAccount autoBudget).suggestedBudget.isAbsent)) = true ∧
    memberIfStr categories (ollamaClassifyResult guess categories).category = true ∧
    notMemberIfStr categories (ollamaClassifyResult guess categories).suggestedCategory = true := by
  have h := parseResponse_good response categories existingAccounts budgets
    autoDestinationAccount autoBudget
  simp only [goodResult, Bool.and_eq_true] at h
  obtain ⟨⟨⟨⟨⟨⟨⟨⟨⟨⟨h1, h2⟩, h3⟩, h4⟩, h5⟩, h6⟩, h7⟩, h8⟩, h9⟩, h10⟩, h11⟩ := h
  refine ⟨h1, h2, h3, h4, h5, h6, h10, h11, ?_, ?_⟩
  · unfold ollamaClassifyResult
    by_cases hm : categories.any (fun n => decide (n = guess)) = true <;>
      simp [hm, memberIfStr, memberIfStr_valNull]
  · unfold ollamaClassifyResult
    by_cases hm : categories.any (fun n => decide (n = guess)) = true <;>
      simp [hm, notMemberIfStr, notMemberIfStr_absent]

/-- C3 counterexample: the bare-category response "Food" with accounts
requested is non-empty and usable (the category resolves), yet both the
resolved and the suggested destination-account fields are null — not
exactly one of them. -/
theorem bare_text_account_pair_both_null :
    (parseResponse "Food" ["Food"] ["Amazon"] [] true false).category =
      FieldVal.val (JValue.str "Food") ∧
    (parseResponse "Food" ["Food"] ["Amazon"] [] true false).destinationAccount.nonNull =
      false ∧
    (parseResponse "Food" ["Food"] ["Amazon"] [] true false).suggestedDestinationAccount.nonNull =
      false ∧
    ("Food" : String) ≠ "" :=
  ⟨rfl, rfl, rfl, by decide⟩

/-- C3 (amended): for each of the three resolved/suggested pairs, at most
one field holds a proper (non-null) value; both may be null even for a
non-empty usable response — e.g. a bare-category response with accounts
requested, or a JSON response lacking the key. -/
theorem parse_requested_pair_at_most_one (response : String)
    (categories existingAccounts budgets : List String)
    (autoDestinationAccount autoBudget : Bool) :
    pairAtMostOne
      (parseResponse response categories existingAccounts budgets
        autoDestinationAccount autoBudget).category
      (parseResponse response categories existingAccounts budgets
        autoDestinationAccount autoBudget).suggestedCategory = true ∧
    pairAtMostOne
      (parseResponse response categories existingAccounts budgets
        autoDestinationAccount autoBudget).destinationAccount
      (parseResponse response categories existingAccounts budgets
        autoDestinationAccount autoBudget).suggestedDestinationAccount = true ∧
    pairAtMostOne
      (parseResponse response categories existingAccounts budgets
        autoDestinationAccount autoBudget).budget
      (parseResponse response categories existingAccounts budgets
        autoDestinationAccount autoBudget).suggestedBudget = true := by
  have h := parseResponse_good response categories existingAccounts budgets
    autoDestinationAccount autoBudget
  simp only [goodResult, Bool.and_eq_true] at h
  obtain ⟨⟨⟨⟨⟨⟨⟨⟨⟨⟨h1, h2⟩, h3⟩, h4⟩, h5⟩, h6⟩, h7⟩, h8⟩, h9⟩, h10⟩, h11⟩ := h
  exact ⟨h7, h8, h9⟩

end FireflyAI
